import Mathlib

/-!
Verification of the MonitoringPingReaction repository: a shallow embedding of
the monitoring decision engine in `aiops_monitor.py` and the model trainer in
`train_model.py`, with theorems settling the specification's claims.

Numeric readings (RTT milliseconds, packet-loss percentages) are embedded as
rationals: every comparison the code performs on them is an order comparison
on decimal literals, which ℚ models exactly.  Python `None` becomes
`Option.none`; the per-target model dictionary becomes a map
`String → Option` of an abstract predict function; the side effects of the
dispatcher (HTTP posts, printed lines) are reified into an explicit result
record so that "never raises", "never retries" and "no request is made"
become statements about that record.
-/

namespace MonitoringPingReaction

/-- Global constant from `aiops_monitor.py`: packet-loss threshold (percent)
above which a reading counts toward the consecutive-loss trigger. -/
def PACKET_LOSS_THRESHOLD_PERCENT : ℚ := 50

/-- Global constant from `aiops_monitor.py`: number of consecutive high-loss
readings required before the outage alert fires. -/
def CONSECUTIVE_LOSS_TRIGGER : ℕ := 3

/-- Whether a packet-loss reading satisfies
`packet_loss >= PACKET_LOSS_THRESHOLD_PERCENT` (the test in line 221 of
`aiops_monitor.py`). -/
def qualifies (packet_loss : ℚ) : Bool :=
  decide (PACKET_LOSS_THRESHOLD_PERCENT ≤ packet_loss)

/-- The Failure Tracker step, lines 221-235 of `aiops_monitor.py`, for one
target and one tick: increment the consecutive-loss counter when the reading
is at or above the threshold, otherwise reset it to 0; then fire the outage
alert when the counter has reached `CONSECUTIVE_LOSS_TRIGGER`, resetting the
counter to 0 on firing.  Returns `(should_alert, new_counter)`. -/
def lossTick (counter : ℕ) (packet_loss : ℚ) : Bool × ℕ :=
  let c1 := if PACKET_LOSS_THRESHOLD_PERCENT ≤ packet_loss then counter + 1 else 0
  if CONSECUTIVE_LOSS_TRIGGER ≤ c1 then (true, 0) else (false, c1)

/-- The alert decisions produced by feeding a sequence of packet-loss
readings, one per tick, to the Failure Tracker starting from `counter`. -/
def runAlerts (counter : ℕ) : List ℚ → List Bool
  | [] => []
  | loss :: rest => (lossTick counter loss).1 :: runAlerts (lossTick counter loss).2 rest

/-- The counter value left after feeding a sequence of packet-loss readings
to the Failure Tracker starting from `counter`. -/
def finalCounter (counter : ℕ) : List ℚ → ℕ
  | [] => counter
  | loss :: rest => finalCounter (lossTick counter loss).2 rest

/-- For each position of the reading sequence, the length of the contiguous
run of threshold-qualifying readings ending at that position, given that a
run of length `r` ends just before the sequence.  This is the mathematical
yardstick the claims about the Failure Tracker are measured against. -/
def runLengths (r : ℕ) : List ℚ → List ℕ
  | [] => []
  | loss :: rest =>
      (if qualifies loss then r + 1 else 0)
        :: runLengths (if qualifies loss then r + 1 else 0) rest

/-- Key invariant: started at a counter congruent to the pending run length
modulo the trigger, the Failure Tracker alerts at exactly the positions whose
ending run length is a positive multiple of `CONSECUTIVE_LOSS_TRIGGER`. -/
theorem runAlerts_eq_map_runLengths (losses : List ℚ) : ∀ c r : ℕ,
    c = r % CONSECUTIVE_LOSS_TRIGGER →
    runAlerts c losses
      = (runLengths r losses).map
          (fun n => decide (0 < n ∧ n % CONSECUTIVE_LOSS_TRIGGER = 0)) := by
  induction losses with
  | nil => intro c r _; rfl
  | cons loss rest ih =>
      intro c r hc
      simp only [CONSECUTIVE_LOSS_TRIGGER] at hc
      have hclt : c < 3 := by omega
      by_cases hq : PACKET_LOSS_THRESHOLD_PERCENT ≤ loss
      · simp only [runAlerts, runLengths, lossTick, qualifies, hq, if_pos,
          decide_True, if_true]
        by_cases h3 : CONSECUTIVE_LOSS_TRIGGER ≤ c + 1
        · have hr1 : (r + 1) % 3 = 0 := by
            simp only [CONSECUTIVE_LOSS_TRIGGER] at h3
            omega
          simp only [h3, if_true, if_pos]
          refine List.cons_eq_cons.mpr ⟨?_, ?_⟩
          · simp only [CONSECUTIVE_LOSS_TRIGGER, hr1]
            simp
          · exact ih 0 (r + 1) (by simp [CONSECUTIVE_LOSS_TRIGGER, hr1])
        · have hr1 : (r + 1) % 3 = c + 1 := by
            simp only [CONSECUTIVE_LOSS_TRIGGER] at h3
            omega
          simp only [h3, if_false, if_neg]
          refine List.cons_eq_cons.mpr ⟨?_, ?_⟩
          · have : ¬ (r + 1) % 3 = 0 := by omega
            simp [CONSECUTIVE_LOSS_TRIGGER, this]
          · exact ih (c + 1) (r + 1) (by simp [CONSECUTIVE_LOSS_TRIGGER, hr1])
      · simp only [runAlerts, runLengths, lossTick, qualifies, hq, if_neg,
          decide_False, if_false, Bool.false_eq_true]
        have h30 : ¬ CONSECUTIVE_LOSS_TRIGGER ≤ 0 := by
          simp [CONSECUTIVE_LOSS_TRIGGER]
        simp only [h30, if_false]
        refine List.cons_eq_cons.mpr ⟨by simp, ?_⟩
        exact ih 0 0 (by simp [CONSECUTIVE_LOSS_TRIGGER])

/-- A per-target trained outlier model, embedded as its opaque predict
function over the feature vector `(rtt_ms, hour_of_day)`: the library returns
`-1` for an outlier and `1` for an inlier. -/
def AnomalyModel : Type := ℚ → ℕ → ℤ

/-- Decimal rendering of a rational with two fractional digits (rounding
half up), standing in for the Python two-decimal float format used for the
RTT in the anomaly reason string; no claim depends on tie behaviour. -/
def format2 (q : ℚ) : String :=
  let n : ℤ := (q.num * 200 + q.den).fdiv (2 * q.den)
  let sign := if n < 0 then "-" else ""
  let intPart := n.natAbs / 100
  let frac := n.natAbs % 100
  sign ++ toString intPart ++ "." ++ (if frac < 10 then "0" else "") ++ toString frac

/-- `check_rtt_anomaly`, lines 128-149 of `aiops_monitor.py`: look the target
up in the loaded-model dictionary; with no model, report non-anomalous with
the fixed reason string; otherwise delegate to the model's predict on the
feature vector `(rtt, hour of the timestamp)` and report anomalous exactly on
a `-1` verdict, quoting the observed RTT in the reason. -/
def check_rtt_anomaly (loaded_models : String → Option AnomalyModel)
    (target : String) (rtt : ℚ) (hour : ℕ) : Bool × String :=
  match loaded_models target with
  | none => (false, "No model available.")
  | some model =>
      if model rtt hour = -1 then
        (true, "AI model detected anomalous RTT (" ++ format2 rtt ++ "ms).")
      else
        (false, "RTT is within normal range.")

/-- Everything one tick of the main loop (lines 219-247 of
`aiops_monitor.py`) decides for one target: the counter it leaves behind,
whether the outage alert was sent, whether `check_rtt_anomaly` was invoked at
all, and whether the latency-anomaly alert was sent. -/
structure TickResult where
  counter : ℕ
  outageAlert : Bool
  anomalyChecked : Bool
  anomalyAlert : Bool
  deriving Repr, DecidableEq

/-- One Decision Engine tick for one target, lines 219-247 of
`aiops_monitor.py`: feed the packet loss to the Failure Tracker; when it
fires, send the outage alert (the `elif` then skips anomaly checking);
otherwise, when an RTT is present, invoke `check_rtt_anomaly` and send the
latency-anomaly alert on a positive verdict. -/
def engineTick (loaded_models : String → Option AnomalyModel) (target : String)
    (counter : ℕ) (rtt : Option ℚ) (packet_loss : ℚ) (hour : ℕ) : TickResult :=
  let r := lossTick counter packet_loss
  if r.1 then
    { counter := r.2, outageAlert := true, anomalyChecked := false, anomalyAlert := false }
  else
    match rtt with
    | some rttVal =>
        let verdict := check_rtt_anomaly loaded_models target rttVal hour
        { counter := r.2, outageAlert := false, anomalyChecked := true,
          anomalyAlert := verdict.1 }
    | none =>
        { counter := r.2, outageAlert := false, anomalyChecked := false,
          anomalyAlert := false }

/-- Outcome of the one `requests.post` call the dispatcher may make: either
an HTTP response (status code and body text) or a raised transport
exception. -/
inductive HttpOutcome where
  | response (status : ℕ) (text : String)
  | exn (msg : String)
  deriving Repr, DecidableEq

/-- Observable effects of one `send_telegram_alert` call: the value the
Python function returns (`none` embeds Python `None`, `some b` would embed
`return b`), the number of HTTP post attempts made, and the lines printed. -/
structure SendResult where
  retval : Option Bool
  posts : ℕ
  postedText : Option String
  log : List String
  deriving Repr, DecidableEq

/-- `send_telegram_alert`, lines 154-180 of `aiops_monitor.py`: return at
once when notifications are disabled or either credential still equals its
placeholder; otherwise make exactly one post attempt, printing a success,
failure-status or caught-exception line, and fall through returning `None`.
The `HttpOutcome` argument stands for what the network did to that single
post. -/
def send_telegram_alert (enabled : Bool) (token chatId message : String)
    (outcome : HttpOutcome) : SendResult :=
  if !enabled then
    { retval := none, posts := 0, postedText := none,
      log := ["  [i] Telegram notifications are disabled in config."] }
  else if !(token != "YOUR_TELEGRAM_BOT_TOKEN" && chatId != "YOUR_TELEGRAM_CHAT_ID") then
    { retval := none, posts := 0, postedText := none,
      log := ["  [!] Telegram credentials are not configured. Skipping notification."] }
  else
    match outcome with
    | .response status text =>
        if status == 200 then
          { retval := none, posts := 1, postedText := some message,
            log := ["  [+] Alert sent to Telegram successfully."] }
        else
          { retval := none, posts := 1, postedText := some message,
            log := ["  [!] Failed to send Telegram alert. Status: " ++ toString status
                      ++ ", Response: " ++ text] }
    | .exn msg =>
        { retval := none, posts := 1, postedText := some message,
          log := ["  [!] Exception while sending Telegram alert: " ++ msg] }

/-- Outcome of the `subprocess.run` invocation inside `execute_ping`: the
ping utility completed with some output, the 15-second timeout expired, or
some other exception was raised. -/
inductive PingOutcome where
  | completed (stdout stderr : String)
  | timedOut
  | failed (msg : String)
  deriving Repr, DecidableEq

/-- `execute_ping`, lines 79-104 of `aiops_monitor.py`: on a completed run,
delegate to the output parser on `stdout + stderr`; on a timeout or any other
exception, catch it and return the worst-case sample
`(rtt = None, loss = 100.0)`.  The parser `parse_ping_output` is the regex
collaborator of lines 45-77, passed in as a function since no claim concerns
the regular expressions themselves. -/
def execute_ping (parse_ping_output : String → Option ℚ × ℚ)
    (outcome : PingOutcome) : Option ℚ × ℚ :=
  match outcome with
  | .completed stdout stderr => parse_ping_output (stdout ++ stderr)
  | .timedOut => (none, 100)
  | .failed _ => (none, 100)

/-- One row of the training CSV as `train_model.py` reads it: timestamp
(represented by the hour feature the trainer extracts), target address, and
the optional RTT (`none` embeds an empty/NaN `rtt_ms` cell). -/
structure Row where
  timestamp_hour : ℕ
  target_ip : String
  rtt_ms : Option ℚ
  deriving Repr, DecidableEq

/-- The `df.dropna(subset=['rtt_ms'])` preprocessing of `train_model.py`
line 19: keep only rows with a successful RTT reading. -/
def validRows (rows : List Row) : List Row :=
  rows.filter (fun r => r.rtt_ms.isSome)

/-- The distinct targets of a column in order of first appearance, modelling
`df['target_ip'].unique()` in `train_model.py` line 31. -/
def uniqueTargets (l : List String) : List String :=
  l.foldl (fun acc t => if t ∈ acc then acc else acc ++ [t]) []

/-- `train_and_save_models`, lines 10-59 of `train_model.py`: drop rows
without RTT, return nothing when no valid data remains, and for each distinct
target either skip it (fewer than 50 valid rows) or fit and save a model.  A
saved artifact is embedded as the `(rtt_ms, hour_of_day)` feature matrix the
Isolation Forest was fitted on, since the fitted estimator itself is opaque;
the returned association list is the set of saved model files keyed by
target. -/
def train_and_save_models (rows : List Row) : List (String × List (ℚ × ℕ)) :=
  let df := validRows rows
  if df.isEmpty then []
  else
    (uniqueTargets (df.map (fun r => r.target_ip))).filterMap (fun target =>
      let target_df := df.filter (fun r => r.target_ip == target)
      if target_df.length < 50 then none
      else some (target, target_df.map (fun r => (r.rtt_ms.getD 0, r.timestamp_hour))))

/-- Membership in the accumulating fold behind `uniqueTargets`. -/
theorem mem_foldl_uniqueAux (l : List String) : ∀ acc x,
    (x ∈ l.foldl (fun acc t => if t ∈ acc then acc else acc ++ [t]) acc)
      ↔ x ∈ acc ∨ x ∈ l := by
  induction l with
  | nil => simp
  | cons t ts ih =>
      intro acc x
      rw [List.foldl_cons, ih]
      by_cases h : t ∈ acc
      · simp only [if_pos h, List.mem_cons]
        constructor
        · rintro (hx | hx)
          · exact Or.inl hx
          · exact Or.inr (Or.inr hx)
        · rintro (hx | rfl | hx)
          · exact Or.inl hx
          · exact Or.inl h
          · exact Or.inr hx
      · simp only [if_neg h, List.mem_append, List.mem_singleton, List.mem_cons]
        tauto

/-- `uniqueTargets` keeps exactly the members of its input. -/
theorem mem_uniqueTargets (l : List String) (x : String) :
    x ∈ uniqueTargets l ↔ x ∈ l := by
  have := mem_foldl_uniqueAux l [] x
  simpa [uniqueTargets] using this

/-- Claim C1: for every sequence of packet-loss readings fed to the Failure
Tracker for one target (threshold 50.0, trigger 3, initial count 0), the
outage alert fires at exactly the readings where the contiguous run of
at-or-above-threshold readings reaches a positive multiple of the trigger —
so it fires once the run reaches 3 and not again within the same run until 3
more qualifying readings accumulate — and the counter is reset to 0 at the
instant an alert fires. -/
theorem C1_failure_tracker_run_characterisation (losses : List ℚ) :
    runAlerts 0 losses
      = (runLengths 0 losses).map
          (fun n => decide (0 < n ∧ n % CONSECUTIVE_LOSS_TRIGGER = 0))
    ∧ (∀ c loss, (lossTick c loss).1 = true → (lossTick c loss).2 = 0) := by
  constructor
  · exact runAlerts_eq_map_runLengths losses 0 0 (by simp [CONSECUTIVE_LOSS_TRIGGER])
  · intro c loss h
    unfold lossTick at h ⊢
    by_cases h3 : CONSECUTIVE_LOSS_TRIGGER
        ≤ (if PACKET_LOSS_THRESHOLD_PERCENT ≤ loss then c + 1 else 0)
    · simp only [if_pos h3]
    · simp only [if_neg h3] at h
      exact absurd h (by simp)

/-- Witness for C1 at Scenario A: losses 70, 60, 80 fire exactly at the
third reading, and a firing tick (counter 2, loss 70) resets the counter. -/
theorem C1_failure_tracker_run_characterisation_witness :
    runAlerts 0 [70, 60, 80] = [false, false, true] ∧ (lossTick 2 70).2 = 0 :=
  ⟨by decide, (C1_failure_tracker_run_characterisation [70, 60, 80]).2 2 70 (by decide)⟩

/-- Claim C2, as stated, is false on the code: on a tick with packet loss 60
(at or above the 50 threshold) whose incremented counter stays below the
trigger and whose RTT is present, the Decision Engine still invokes
`check_rtt_anomaly`. -/
theorem C2_anomaly_check_despite_high_loss :
    (engineTick (fun _ => none) "8.8.8.8" 0 (some 20) 60 0).anomalyChecked = true
    ∧ ¬ ((60 : ℚ) < PACKET_LOSS_THRESHOLD_PERCENT) :=
  ⟨rfl, by decide⟩

/-- Claim C2 amended: `check_rtt_anomaly` is invoked on a tick exactly when
no outage alert fired on that tick and the RTT reading is present — the
`elif` gates anomaly classification on the trigger not having fired, not on
the packet loss being below the threshold. -/
theorem C2_amended_anomaly_check_iff_no_outage
    (models : String → Option AnomalyModel) (target : String) (c : ℕ)
    (rtt : Option ℚ) (loss : ℚ) (hour : ℕ) :
    (engineTick models target c rtt loss hour).anomalyChecked
      = (!(engineTick models target c rtt loss hour).outageAlert && rtt.isSome) := by
  unfold engineTick
  by_cases h : (lossTick c loss).1 <;> cases rtt <;> simp [h]

/-- Claim C3, as stated, is false on the code only in the exact reason
string: with no model loaded the classifier returns the string
"No model available." (capitalised, with a trailing period), not
"no model available". -/
theorem C3_no_model_reason_string_differs :
    check_rtt_anomaly (fun _ => none) "8.8.8.8" 20 0 ≠ (false, "no model available") := by
  decide

/-- Claim C3 amended: for every target with no loaded model and every RTT
and timestamp, `check_rtt_anomaly` returns exactly
`(false, "No model available.")`; the branch returns before touching any
model, so no exception can be raised. -/
theorem C3_no_model_branch (models : String → Option AnomalyModel)
    (target : String) (rtt : ℚ) (hour : ℕ) (h : models target = none) :
    check_rtt_anomaly models target rtt hour = (false, "No model available.") := by
  unfold check_rtt_anomaly
  rw [h]

/-- Witness for C3: a concrete no-model lookup returns the fixed pair. -/
theorem C3_no_model_branch_witness :
    check_rtt_anomaly (fun _ => none) "8.8.8.8" 20 0 = (false, "No model available.") :=
  C3_no_model_branch (fun _ => none) "8.8.8.8" 20 0 rfl

/-- Claim C4, as stated, is false on the code: `send_telegram_alert` has no
return statement with a value, so on a transport failure it returns Python
`None` (embedded `Option.none`), not the boolean `false` the claim
promises. -/
theorem C4_dispatch_returns_none_not_false :
    (send_telegram_alert true "tok" "chat" "msg" (HttpOutcome.exn "connection refused")).retval
        = none
    ∧ (send_telegram_alert true "tok" "chat" "msg" (HttpOutcome.exn "connection refused")).retval
        ≠ some false :=
  ⟨rfl, by decide⟩

/-- Claim C4 amended: `send_telegram_alert` returns no value (Python `None`)
on every path; on a transport exception or a non-success response it logs
the failure and returns normally instead of raising, and it makes at most
one HTTP post attempt per call — it never retries. -/
theorem C4_amended_dispatch_no_raise_no_retry (enabled : Bool)
    (token chatId message : String) (outcome : HttpOutcome) :
    (send_telegram_alert enabled token chatId message outcome).retval = none
    ∧ (send_telegram_alert enabled token chatId message outcome).posts ≤ 1 := by
  unfold send_telegram_alert
  by_cases h1 : enabled
  · by_cases h2 : (token != "YOUR_TELEGRAM_BOT_TOKEN" && chatId != "YOUR_TELEGRAM_CHAT_ID")
    · cases outcome with
      | response status text => by_cases h3 : status = 200 <;> simp [h1, h2, h3]
      | exn msg => simp [h1, h2]
    · simp [h1, h2]
  · simp [h1]

/-- Claim C5: within a single tick for a single target, the outage alert and
the latency-anomaly alert are never both emitted — the latency branch is the
`elif` of the outage branch. -/
theorem C5_alerts_mutually_exclusive
    (models : String → Option AnomalyModel) (target : String) (c : ℕ)
    (rtt : Option ℚ) (loss : ℚ) (hour : ℕ) :
    ((engineTick models target c rtt loss hour).outageAlert
      && (engineTick models target c rtt loss hour).anomalyAlert) = false := by
  unfold engineTick
  by_cases h : (lossTick c loss).1 <;> cases rtt <;> simp [h]

/-- Claim C6: a single reading with packet loss strictly below the threshold
leaves the target's consecutive-loss counter at exactly 0, whatever its
prior value. -/
theorem C6_below_threshold_resets_counter
    (models : String → Option AnomalyModel) (target : String) (c : ℕ)
    (rtt : Option ℚ) (hour : ℕ) (loss : ℚ)
    (h : loss < PACKET_LOSS_THRESHOLD_PERCENT) :
    (engineTick models target c rtt loss hour).counter = 0 := by
  have hq : ¬ PACKET_LOSS_THRESHOLD_PERCENT ≤ loss := not_le.mpr h
  have hstep : lossTick c loss = (false, 0) := by
    unfold lossTick
    simp [hq, CONSECUTIVE_LOSS_TRIGGER]
  unfold engineTick
  rw [hstep]
  cases rtt <;> simp

/-- Witness for C6: prior counter 2, loss 20 (below 50), counter ends 0. -/
theorem C6_below_threshold_resets_counter_witness :
    (engineTick (fun _ => none) "8.8.8.8" 2 (some 20) 20 0).counter = 0 :=
  C6_below_threshold_resets_counter (fun _ => none) "8.8.8.8" 2 (some 20) 0 20 (by decide)

/-- Claim C7: a probe that cannot complete — the subprocess timeout or any
other exception — makes `execute_ping` return the worst-case sample
`(rtt = none, packet loss = 100.0)`; both handlers return a value, so no
exception reaches the Decision Engine. -/
theorem C7_probe_failure_worst_case (parse_ping_output : String → Option ℚ × ℚ)
    (outcome : PingOutcome)
    (h : outcome = PingOutcome.timedOut ∨ ∃ msg, outcome = PingOutcome.failed msg) :
    execute_ping parse_ping_output outcome = (none, 100) := by
  rcases h with rfl | ⟨msg, rfl⟩ <;> rfl

/-- Witness for C7 at a timed-out probe, with a parser that would report a
healthy sample had the probe completed. -/
theorem C7_probe_failure_worst_case_witness :
    execute_ping (fun _ => (some 1, 0)) PingOutcome.timedOut = (none, 100) :=
  C7_probe_failure_worst_case (fun _ => (some 1, 0)) PingOutcome.timedOut (Or.inl rfl)

/-- Bound on the Failure Tracker step: whatever the prior counter, the
counter left behind by one tick is strictly below the trigger. -/
theorem lossTick_counter_lt (c : ℕ) (loss : ℚ) :
    (lossTick c loss).2 < CONSECUTIVE_LOSS_TRIGGER := by
  unfold lossTick
  by_cases h3 : CONSECUTIVE_LOSS_TRIGGER
      ≤ (if PACKET_LOSS_THRESHOLD_PERCENT ≤ loss then c + 1 else 0)
  · simp only [if_pos h3]
    simp [CONSECUTIVE_LOSS_TRIGGER]
  · simp only [if_neg h3]
    omega

/-- Claim C9: between ticks the consecutive-loss counter always lies in
`[0, CONSECUTIVE_LOSS_TRIGGER - 1]` — every single step leaves it strictly
below the trigger, hence so does any sequence of readings started at 0 — and
starting below the trigger the step fires exactly when the incremented
counter transiently reaches the trigger. -/
theorem C9_counter_invariant :
    (∀ c loss, (lossTick c loss).2 < CONSECUTIVE_LOSS_TRIGGER)
    ∧ (∀ losses, finalCounter 0 losses < CONSECUTIVE_LOSS_TRIGGER)
    ∧ (∀ c loss, c < CONSECUTIVE_LOSS_TRIGGER →
        ((lossTick c loss).1 = true
          ↔ qualifies loss = true ∧ c + 1 = CONSECUTIVE_LOSS_TRIGGER)) := by
  refine ⟨lossTick_counter_lt, ?_, ?_⟩
  · have key : ∀ losses c, c < CONSECUTIVE_LOSS_TRIGGER →
        finalCounter c losses < CONSECUTIVE_LOSS_TRIGGER := by
      intro losses
      induction losses with
      | nil => intro c hc; exact hc
      | cons loss rest ih =>
          intro c _
          exact ih (lossTick c loss).2 (lossTick_counter_lt c loss)
    intro losses
    exact key losses 0 (by simp [CONSECUTIVE_LOSS_TRIGGER])
  · intro c loss hc
    unfold lossTick qualifies
    by_cases hq : PACKET_LOSS_THRESHOLD_PERCENT ≤ loss
    · simp only [if_pos hq, decide_True]
      by_cases h3 : CONSECUTIVE_LOSS_TRIGGER ≤ c + 1
      · have : c + 1 = CONSECUTIVE_LOSS_TRIGGER := by omega
        simp [h3, this, hq]
      · have : ¬ c + 1 = CONSECUTIVE_LOSS_TRIGGER := by omega
        simp [h3, this, hq]
    · simp only [if_neg hq, decide_False]
      have h30 : ¬ CONSECUTIVE_LOSS_TRIGGER ≤ 0 := by
        simp [CONSECUTIVE_LOSS_TRIGGER]
      simp [h30, hq]

/-- Witness for C9: from counter 2 a qualifying loss of 70 fires the
trigger. -/
theorem C9_counter_invariant_witness :
    (lossTick 2 70).1 = true ↔ qualifies 70 = true ∧ 2 + 1 = CONSECUTIVE_LOSS_TRIGGER :=
  C9_counter_invariant.2.2 2 70 (by decide)

/-- Claim C10: with notifications enabled but either credential still at its
placeholder default, `send_telegram_alert` makes no HTTP post for any
message: it prints the not-configured line and returns. -/
theorem C10_placeholder_credentials_skip_post (token chatId message : String)
    (outcome : HttpOutcome)
    (h : token = "YOUR_TELEGRAM_BOT_TOKEN" ∨ chatId = "YOUR_TELEGRAM_CHAT_ID") :
    (send_telegram_alert true token chatId message outcome).posts = 0
    ∧ (send_telegram_alert true token chatId message outcome).postedText = none
    ∧ (send_telegram_alert true token chatId message outcome).log
        = ["  [!] Telegram credentials are not configured. Skipping notification."] := by
  unfold send_telegram_alert
  rcases h with rfl | rfl <;> simp

/-- Witness for C10: placeholder bot token, enabled flag on, a would-succeed
network: still zero posts. -/
theorem C10_placeholder_credentials_skip_post_witness :
    (send_telegram_alert true "YOUR_TELEGRAM_BOT_TOKEN" "chat42" "msg"
        (HttpOutcome.response 200 "ok")).posts = 0 :=
  (C10_placeholder_credentials_skip_post "YOUR_TELEGRAM_BOT_TOKEN" "chat42" "msg"
    (HttpOutcome.response 200 "ok") (Or.inl rfl)).1

/-- Claim C8: the Model Trainer saves a model for a target exactly when that
target has at least 50 valid historical samples — rows surviving the
RTT-dropna — and a target below the cutoff is skipped, retaining no model;
the skip is a `continue`, not an error. -/
theorem C8_trainer_min_samples (rows : List Row) (target : String) :
    (∃ m, (target, m) ∈ train_and_save_models rows)
      ↔ 50 ≤ ((validRows rows).filter (fun r => r.target_ip == target)).length := by
  unfold train_and_save_models
  by_cases hemp : (validRows rows).isEmpty
  · rw [List.isEmpty_iff] at hemp
    simp [hemp]
  · simp only [hemp, Bool.false_eq_true, if_false]
    constructor
    · rintro ⟨m, hm⟩
      rw [List.mem_filterMap] at hm
      obtain ⟨t, ht, hg⟩ := hm
      by_cases hlen : ((validRows rows).filter (fun r => r.target_ip == t)).length < 50
      · rw [if_pos hlen] at hg
        exact absurd hg (by simp)
      · rw [if_neg hlen] at hg
        have hteq : t = target := (Prod.mk.injEq _ _ _ _ ▸ Option.some.injEq _ _ ▸ hg).1
        rw [hteq] at hlen
        omega
    · intro hlen
      refine ⟨((validRows rows).filter (fun r => r.target_ip == target)).map
          (fun r => (r.rtt_ms.getD 0, r.timestamp_hour)), ?_⟩
      rw [List.mem_filterMap]
      refine ⟨target, ?_, ?_⟩
      · have hpos : 0 < ((validRows rows).filter (fun r => r.target_ip == target)).length := by
          omega
        obtain ⟨r, hr⟩ := List.exists_mem_of_length_pos hpos
        have hrf := List.mem_filter.mp hr
        rw [mem_uniqueTargets]
        refine List.mem_map.mpr ⟨r, hrf.1, ?_⟩
        simpa using hrf.2
      · rw [if_neg (by omega)]

end MonitoringPingReaction
